import Mathlib

/-!
Verification development for the PISHOW playback orchestration core.

The embedded code is the display client of `backend/static` (playlist
sequencer `playItem` / `computeDuration` / `clearCurrentTimer` /
`showNoContent`, and the reconciliation poller `pollPlaylist`) together
with the playlist editor's `savePlaylist`.  Pure functions become Lean
functions; the sequencer's mutable module state becomes an explicit
`SeqState` record threaded through a `step` function driven by the
events that can interrupt the event loop (timer firing, video
ended/error, poll results).  The poller's shape validation is embedded
twice: once over a JSON value type (exactly the truthiness checks the
code performs) and once on the typed success path used by the
sequencer model.
-/

namespace PiShow

/-- JSON-like values as delivered by the playlist endpoint.  `null` also
stands for JavaScript `undefined`: the source only tests such values with
loose `!= null` checks and truthiness, for which the two coincide. -/
inductive Json where
  | null
  | bool (b : Bool)
  | num (n : Int)
  | str (s : String)
  | arr (items : List Json)
  | obj (fields : List (String × Json))

/-- JavaScript's strict `===` on the values the poller compares (the
version tokens): primitives compare by value; composite values (objects,
arrays) compare by reference, and the freshly parsed poll response never
aliases the cached value, so they compare unequal. -/
def jsonEq : Json → Json → Bool
  | .null, .null => true
  | .bool a, .bool b => a == b
  | .num a, .num b => a == b
  | .str a, .str b => a == b
  | _, _ => false

/-- JavaScript truthiness: `null`/`undefined`, `false`, `0` and `""` are
falsy; every object and array is truthy. -/
def truthy : Json → Bool
  | .null => false
  | .bool b => b
  | .num n => decide (n ≠ 0)
  | .str s => decide (s ≠ "")
  | .arr _ => true
  | .obj _ => true

/-- Property access `j.name`: field lookup on objects, `undefined`
(modelled as `.null`) on everything else or when the field is absent. -/
def getField (j : Json) (name : String) : Json :=
  match j with
  | .obj fields =>
    match fields.find? (fun p => p.1 == name) with
    | some p => p.2
    | none => .null
  | _ => .null

/-- A playlist item as the display client reads it from
`GET /api/playlist`: `media_type` string, nullable stored `duration`
override and nullable `default_duration` from the media library. -/
structure DisplayItem where
  media_type : String
  duration : Option Int
  default_duration : Option Int
deriving DecidableEq, Repr

instance : Inhabited DisplayItem := ⟨⟨"", none, none⟩⟩

/-- `computeDuration` from the display client: `null` for non-images
(videos end on their `ended` event); for images the stored `duration` if
non-null, else `default_duration` if non-null, else the constant 8. -/
def computeDuration (item : DisplayItem) : Option Int :=
  if item.media_type ≠ "image" then
    none
  else
    match item.duration with
    | some d => some d
    | none =>
      match item.default_duration with
      | some d => some d
      | none => some 8

/-- Module state of the display client: the cached playlist snapshot and
version, the current index, the single `currentTimer` slot (`some d` when
a one-shot timer of `d` seconds is armed), the media elements currently
attached to `display-container`, and whether the no-content placeholder
is shown. -/
structure SeqState where
  playlist : List DisplayItem
  playlistVersion : Option Int
  currentIndex : Nat
  currentTimer : Option Int
  attached : List DisplayItem
  noContentShown : Bool
deriving DecidableEq, Repr

/-- `clearCurrentTimer`: cancel the armed timer, if any. -/
def clearCurrentTimer (s : SeqState) : SeqState :=
  { s with currentTimer := none }

/-- `showNoContent`: cancel the timer, empty the container and attach the
no-content placeholder. -/
def showNoContent (s : SeqState) : SeqState :=
  { clearCurrentTimer s with attached := [], noContentShown := true }

/-- `playItem(index)`: with an empty playlist show the no-content screen;
otherwise wrap an out-of-range index to 0, cancel the pending timer,
replace the container contents with the single media element for the
item, and for an image arm the one-shot auto-advance timer with
`computeDuration` (videos instead get `ended`/`error` listeners on the
attached element, modelled by the element's presence). -/
def playItem (s : SeqState) (index : Nat) : SeqState :=
  if s.playlist.length = 0 then
    showNoContent s
  else
    let index := if index ≥ s.playlist.length then 0 else index
    let item := s.playlist.getD index default
    let s' : SeqState :=
      { s with
        currentIndex := index
        currentTimer := none
        attached := [item]
        noContentShown := false }
    if item.media_type = "image" then
      { s' with currentTimer := computeDuration item }
    else
      s'

/-- Poll interval: the display client re-arms `setTimeout(pollPlaylist,
5000)` in the `finally` block of every tick. -/
def POLL_INTERVAL_MS : Nat := 5000

/-- `pollPlaylist`, typed success path: `none` is any failed tick
(transport error, non-OK response, parse error, shape rejection) whose
`catch` only logs; `some (version, items)` is a validated payload.  The
result pairs the new state with the delay of the next scheduled tick,
which the `finally` block always sets to `POLL_INTERVAL_MS`. -/
def pollPlaylist (s : SeqState) (result : Option (Option Int × List DisplayItem)) :
    SeqState × Nat :=
  match result with
  | none => (s, POLL_INTERVAL_MS)
  | some (version, items) =>
    if version ≠ s.playlistVersion then
      let s' : SeqState :=
        { s with playlistVersion := version, playlist := items, currentIndex := 0 }
      if s'.playlist.length ≠ 0 then
        (playItem s' 0, POLL_INTERVAL_MS)
      else
        (showNoContent s', POLL_INTERVAL_MS)
    else
      (s, POLL_INTERVAL_MS)

/-- Events that can interrupt the display client's event loop. -/
inductive SeqEvent where
  | timerFire
  | videoEnded
  | videoError
  | pollOk (version : Option Int) (items : List DisplayItem)
  | pollFail
deriving DecidableEq, Repr

/-- One atomic event-loop turn.  A timer firing runs the armed callback
`playItem(index + 1)` (the timer is only live while `currentTimer` is
set, since reconciliation and transitions call `clearTimeout`).  The
`ended` and `error` listeners are attached exactly to a displayed
non-image element and both run `playItem(index + 1)`.  Poll results go
through `pollPlaylist`. -/
def step (s : SeqState) (e : SeqEvent) : SeqState :=
  match e with
  | .timerFire =>
    match s.currentTimer with
    | some _ => playItem s (s.currentIndex + 1)
    | none => s
  | .videoEnded =>
    match s.attached with
    | [item] => if item.media_type ≠ "image" then playItem s (s.currentIndex + 1) else s
    | _ => s
  | .videoError =>
    match s.attached with
    | [item] => if item.media_type ≠ "image" then playItem s (s.currentIndex + 1) else s
    | _ => s
  | .pollOk version items => (pollPlaylist s (some (version, items))).1
  | .pollFail => (pollPlaylist s none).1

/-- `init`: the display client starts from the initial snapshot and
version embedded in the page, plays index 0 when the playlist is
non-empty and shows the no-content screen otherwise. -/
def init (playlist : List DisplayItem) (version : Option Int) : SeqState :=
  let s : SeqState :=
    { playlist := playlist
      playlistVersion := version
      currentIndex := 0
      currentTimer := none
      attached := []
      noContentShown := true }
  if s.playlist.length ≠ 0 then playItem s 0 else showNoContent s

/-- States the display client can actually be in: an initial state
followed by any sequence of event-loop turns. -/
inductive Reachable : SeqState → Prop where
  | init : ∀ playlist version, Reachable (init playlist version)
  | step : ∀ s e, Reachable s → Reachable (step s e)

/-- Raw state of the poller before any typing assumption: the snapshot
and cached version exactly as the JavaScript variables hold them. -/
structure PollState where
  playlistJson : Json
  playlistVersion : Json
  currentIndex : Nat

/-- `pollPlaylist` at the JSON level, as the code validates it: a failed
fetch or parse (`none`) is caught and changes nothing; otherwise the
payload is rejected when `!data || !data.items` (truthiness only), and on
a version mismatch the snapshot is replaced by whatever `data.items`
holds and the index reset to 0. -/
def pollPlaylistRaw (s : PollState) (response : Option Json) : PollState :=
  match response with
  | none => s
  | some data =>
    if truthy data && truthy (getField data "items") then
      if jsonEq (getField data "version") s.playlistVersion = false then
        { s with
          playlistVersion := getField data "version"
          playlistJson := getField data "items"
          currentIndex := 0 }
      else s
    else s

/-- An item of the editor's `playlistState`: the media reference, the
media type recorded when it was added, and the operator-edited duration. -/
structure EditorItem where
  mediaId : Int
  mediaType : String
  duration : Option Int
deriving DecidableEq, Repr

/-- An entry of the payload the editor posts to `POST /api/playlist`. -/
structure PayloadItem where
  media_id : Int
  duration : Option Int
deriving DecidableEq, Repr

/-- Media-library lookup backing the editor's `mediaMap`: media id to
`media_type`. -/
def mediaMapGet (mediaMap : List (Int × String)) (id : Int) : Option String :=
  (mediaMap.find? (fun p => p.1 == id)).map (fun p => p.2)

/-- The arrow function inside `savePlaylist`'s `playlistState.map`: keep
the operator-entered duration for images, null it for everything else. -/
def payloadItemOf (item : EditorItem) : PayloadItem :=
  { media_id := item.mediaId
    duration := if item.mediaType ≠ "image" then none else item.duration }

/-- `savePlaylist` from the editor, up to the POST: `none` when the
playlist is empty (alert, no request); otherwise the payload items, with
`duration` nulled for every non-image item, and additionally nulled on a
single-item payload whose media the library classifies as an image
(the source comments this as infinite display for a single image). -/
def savePlaylist (mediaMap : List (Int × String)) (playlistState : List EditorItem) :
    Option (List PayloadItem) :=
  if playlistState.length = 0 then
    none
  else
    let payloadItems := playlistState.map payloadItemOf
    let payloadItems :=
      match payloadItems with
      | [onlyItem] =>
        if mediaMapGet mediaMap onlyItem.media_id = some "image" then
          [{ onlyItem with duration := none }]
        else
          [onlyItem]
      | other => other
    some payloadItems

instance : Inhabited EditorItem := ⟨⟨0, "", none⟩⟩

instance : Inhabited PayloadItem := ⟨⟨0, none⟩⟩

/-- The spec's phrase "a sequence of items": the payload field actually
is a JSON array.  This follows the specification's wording and is
compared against the truthiness check the code performs. -/
def isItemsSequence : Json → Bool
  | .arr _ => true
  | _ => false

/-- Sequencer invariant: at most one media element is attached; with a
non-empty snapshot the element for the current (in-range) item is the
only thing attached and the no-content placeholder is hidden; and an
armed timer always belongs to the currently shown image item (so a
timer and a video listener are never live together). -/
def SeqInv (s : SeqState) : Prop :=
  s.attached.length ≤ 1 ∧
  (s.playlist ≠ [] →
    s.currentIndex < s.playlist.length ∧
    s.attached = [s.playlist.getD s.currentIndex default] ∧
    s.noContentShown = false) ∧
  (s.currentTimer.isSome = true →
    s.playlist ≠ [] ∧ (s.playlist.getD s.currentIndex default).media_type = "image")

/-- A sample video item for concrete instantiations. -/
def sampleVideo : DisplayItem := ⟨"video", none, none⟩

/-- A sample image item with an override and a library default. -/
def sampleImage : DisplayItem := ⟨"image", some 5, some 3⟩

/-- A sample image item with no override and a library default. -/
def sampleImage2 : DisplayItem := ⟨"image", none, some 4⟩

/-- The display client started on a one-video playlist. -/
def sampleState : SeqState := init [sampleVideo] (some 1)

/-- The display client started on a three-item playlist. -/
def threeItemState : SeqState := init [sampleImage, sampleImage2, sampleVideo] (some 7)

/-- An idle raw poller state with an empty cached snapshot. -/
def pollIdleState : PollState := ⟨Json.arr [], Json.null, 0⟩

/-- A poll payload whose `items` field is a number, not a sequence. -/
def pollCexData : Json :=
  Json.obj [("version", Json.num 1), ("items", Json.num 5)]

/-- Characterization of `playItem` on a non-empty snapshot: wrap the
index, attach exactly the selected item, arm the image timer. -/
theorem playItem_of_ne_nil (s : SeqState) (i : Nat) (h : s.playlist.length ≠ 0) :
    playItem s i =
      { s with
        currentIndex := if i ≥ s.playlist.length then 0 else i
        currentTimer :=
          if (s.playlist.getD (if i ≥ s.playlist.length then 0 else i) default).media_type
              = "image" then
            computeDuration (s.playlist.getD (if i ≥ s.playlist.length then 0 else i) default)
          else
            none
        attached := [s.playlist.getD (if i ≥ s.playlist.length then 0 else i) default]
        noContentShown := false } := by
  unfold playItem
  rw [if_neg h]
  dsimp only
  split
  all_goals split
  all_goals rfl

/-- Claim C1, counterexample: a playlist holding exactly one image whose
stored duration is explicitly null still arms an auto-advance timer —
`computeDuration` falls back to the 8-second constant (or the library
default), so `playItem` calls `setTimeout`.  The claim says no timer is
armed. -/
theorem c1_single_null_image_arms_timer :
    (init [{ media_type := "image", duration := none, default_duration := none }]
        (some 1)).currentTimer = some 8 := by
  rfl

/-- Claim C1 (amended): playing the single null-duration image arms a
timer with the library default duration (8-second fallback), and every
firing of that timer calls `playItem(1)`, which wraps back to index 0
and reproduces the very same state — the same image stays displayed
forever even though a timer keeps being armed. -/
theorem c1_amended_timer_refires_same_item (dd v : Option Int) :
    (init [{ media_type := "image", duration := none, default_duration := dd }] v).currentTimer
        = some (dd.getD 8) ∧
    step (init [{ media_type := "image", duration := none, default_duration := dd }] v)
        SeqEvent.timerFire
      = init [{ media_type := "image", duration := none, default_duration := dd }] v := by
  cases dd <;> exact ⟨rfl, rfl⟩

/-- Claim C6: for an image item the effective display duration is the
stored per-item override when present, else the media's default duration
when present, else the fixed 8-second fallback. -/
theorem c6_image_duration_resolution (item : DisplayItem)
    (himg : item.media_type = "image") :
    computeDuration item = some (item.duration.getD (item.default_duration.getD 8)) := by
  cases hd : item.duration <;> cases hdd : item.default_duration <;>
    simp [computeDuration, himg, hd, hdd]

/-- Claim C6, witness: `sampleImage` has override 5 and default 3, and
resolves to 5. -/
theorem c6_witness : computeDuration sampleImage = some 5 :=
  c6_image_duration_resolution sampleImage rfl

/-- Claim C7: a failed poll tick (transport, HTTP or parse error) is a
complete no-op on the sequencer state — cached version, snapshot, index,
timer and the shown element are all untouched — and the next tick is
still scheduled after the same constant 5000 ms interval, with no
backoff state anywhere in the model. -/
theorem c7_poll_failure_is_noop (s : SeqState) :
    pollPlaylist s none = (s, POLL_INTERVAL_MS) ∧
    POLL_INTERVAL_MS = 5000 ∧
    step s SeqEvent.pollFail = s :=
  ⟨rfl, rfl, rfl⟩

/-- Claim C8, counterexample: an image item whose stored override is 0
(a non-positive value) is not treated as "use fallback" — the resolved
duration is 0 and `playItem` arms the timer with exactly that
non-positive duration. -/
theorem c8_nonpositive_duration_counterexample :
    computeDuration { media_type := "image", duration := some 0, default_duration := none }
        = some 0 ∧
    (init [{ media_type := "image", duration := some 0, default_duration := none }]
        (some 1)).currentTimer = some 0 ∧
    ¬ (0 : Int) > 0 := by
  exact ⟨rfl, rfl, by decide⟩

/-- Claim C8 (amended): the sequencer has no defensive non-positivity
check.  Whenever the stored override is non-null — zero and negative
values included — `computeDuration` returns it verbatim and the armed
timer uses exactly that value; the fallback chain applies only when the
override is null. -/
theorem c8_amended_override_used_verbatim (d : Int) (dd v : Option Int) :
    computeDuration { media_type := "image", duration := some d, default_duration := dd }
        = some d ∧
    (init [{ media_type := "image", duration := some d, default_duration := dd }] v).currentTimer
        = some d :=
  ⟨rfl, rfl⟩

/-- Claim C5: `playItem` always lands on an index inside `[0, len)` for
a non-empty playlist; `playItem` at index `len` (one past the end) is
the very same transition as `playItem 0`, the continuous loop; and on an
empty playlist `playItem` goes to the no-content (idle) screen. -/
theorem c5_play_wraps_and_clamps (s : SeqState) (i : Nat) :
    (s.playlist = [] → playItem s i = showNoContent s ∧ (playItem s i).noContentShown = true) ∧
    (s.playlist ≠ [] → (playItem s i).currentIndex < s.playlist.length) ∧
    playItem s s.playlist.length = playItem s 0 := by
  refine ⟨?_, ?_, ?_⟩
  · intro h
    have h0 : s.playlist.length = 0 := by simp [h]
    constructor
    · unfold playItem; rw [if_pos h0]
    · unfold playItem; rw [if_pos h0]; rfl
  · intro h
    have h0 : s.playlist.length ≠ 0 := fun hl => h (List.length_eq_zero.mp hl)
    rw [playItem_of_ne_nil s i h0]
    dsimp only
    split
    · omega
    · omega
  · by_cases h0 : s.playlist.length = 0
    · unfold playItem; rw [if_pos h0, if_pos h0]
    · rw [playItem_of_ne_nil s s.playlist.length h0, playItem_of_ne_nil s 0 h0]
      have h1 : s.playlist.length ≥ s.playlist.length := Nat.le_refl _
      have h2 : ¬ (0 ≥ s.playlist.length) := by omega
      rw [if_pos h1, if_neg h2]

/-- Claim C5, witness: on the running three-item playlist, advancing
past the final index wraps around to index 0. -/
theorem c5_witness :
    (threeItemState.playlist = [] →
      playItem threeItemState 3 = showNoContent threeItemState ∧
      (playItem threeItemState 3).noContentShown = true) ∧
    (threeItemState.playlist ≠ [] →
      (playItem threeItemState 3).currentIndex < threeItemState.playlist.length) ∧
    playItem threeItemState threeItemState.playlist.length = playItem threeItemState 0 :=
  c5_play_wraps_and_clamps threeItemState 3

/-- Claim C4: video items arm no duration timer (`computeDuration` is
only consulted for images, and `playItem` leaves `currentTimer` empty on
a non-image item); the `ended` and `error` listeners are the same
transition for every state; and when the attached element is a video,
either signal advances the sequencer to `currentIndex + 1`. -/
theorem c4_video_advances_on_signals (s : SeqState) (i : Nat) :
    step s SeqEvent.videoEnded = step s SeqEvent.videoError ∧
    (s.playlist.length ≠ 0 →
      (s.playlist.getD (if i ≥ s.playlist.length then 0 else i) default).media_type ≠ "image" →
      (playItem s i).currentTimer = none) ∧
    (s.attached.length = 1 →
      (s.attached.getD 0 default).media_type ≠ "image" →
      step s SeqEvent.videoEnded = playItem s (s.currentIndex + 1) ∧
      step s SeqEvent.videoError = playItem s (s.currentIndex + 1)) := by
  refine ⟨rfl, ?_, ?_⟩
  · intro h0 hm
    rw [playItem_of_ne_nil s i h0]
    dsimp only
    rw [if_neg hm]
  · intro hlen hm
    cases ha : s.attached with
    | nil => rw [ha] at hlen; simp at hlen
    | cons a rest =>
      cases rest with
      | nil =>
        have hm' : a.media_type ≠ "image" := by rw [ha] at hm; simpa using hm
        constructor <;> · simp only [step, ha]; rw [if_pos hm']
      | cons b rest' => rw [ha] at hlen; simp at hlen

/-- Claim C4, witness: the one-video playlist state has the lone video
attached, and both completion signals advance it identically. -/
theorem c4_witness :
    step sampleState SeqEvent.videoEnded = step sampleState SeqEvent.videoError ∧
    (sampleState.playlist.length ≠ 0 →
      (sampleState.playlist.getD (if 0 ≥ sampleState.playlist.length then 0 else 0)
          default).media_type ≠ "image" →
      (playItem sampleState 0).currentTimer = none) ∧
    (sampleState.attached.length = 1 →
      (sampleState.attached.getD 0 default).media_type ≠ "image" →
      step sampleState SeqEvent.videoEnded = playItem sampleState (sampleState.currentIndex + 1) ∧
      step sampleState SeqEvent.videoError = playItem sampleState (sampleState.currentIndex + 1)) :=
  c4_video_advances_on_signals sampleState 0

/-- Claim C2: a poll result whose version differs from the cached one
replaces the cached version and snapshot and restarts playback at index
0 of the new snapshot, whatever the prior index was; the previously
armed timer/listener is gone — afterwards the timer slot and the
attached element are determined by the new head item alone — and an
empty new snapshot yields the idle no-content screen. -/
theorem c2_reconcile_restarts_at_zero (s : SeqState) (v : Option Int)
    (items : List DisplayItem) (hv : v ≠ s.playlistVersion) :
    (step s (SeqEvent.pollOk v items)).playlistVersion = v ∧
    (step s (SeqEvent.pollOk v items)).playlist = items ∧
    (items = [] →
      (step s (SeqEvent.pollOk v items)).attached = [] ∧
      (step s (SeqEvent.pollOk v items)).noContentShown = true ∧
      (step s (SeqEvent.pollOk v items)).currentTimer = none) ∧
    (items ≠ [] →
      (step s (SeqEvent.pollOk v items)).currentIndex = 0 ∧
      (step s (SeqEvent.pollOk v items)).attached = [items.getD 0 default] ∧
      (step s (SeqEvent.pollOk v items)).noContentShown = false ∧
      (step s (SeqEvent.pollOk v items)).currentTimer =
        (if (items.getD 0 default).media_type = "image" then
          computeDuration (items.getD 0 default)
        else none)) := by
  by_cases hi : items = []
  · refine ⟨?_, ?_, ?_, ?_⟩ <;>
      simp [step, pollPlaylist, hv, hi, showNoContent, clearCurrentTimer]
  · have hl : items.length ≠ 0 := fun hzero => hi (List.length_eq_zero.mp hzero)
    have hstep : step s (SeqEvent.pollOk v items) =
        playItem { s with playlistVersion := v, playlist := items, currentIndex := 0 } 0 := by
      simp [step, pollPlaylist, hv, hl]
    rw [hstep, playItem_of_ne_nil _ 0 hl]
    have hz : ¬ ((0 : Nat) ≥ items.length) := by omega
    rw [if_neg hz]
    exact ⟨rfl, rfl, fun h => absurd h hi, fun _ => ⟨rfl, rfl, rfl, rfl⟩⟩

/-- Claim C2, witness: reconciling the one-video state to version 2 with
a one-image snapshot restarts at index 0 showing that image. -/
theorem c2_witness :
    (step sampleState (SeqEvent.pollOk (some 2) [sampleImage])).playlistVersion = some 2 ∧
    (step sampleState (SeqEvent.pollOk (some 2) [sampleImage])).playlist = [sampleImage] ∧
    ([sampleImage] = ([] : List DisplayItem) →
      (step sampleState (SeqEvent.pollOk (some 2) [sampleImage])).attached = [] ∧
      (step sampleState (SeqEvent.pollOk (some 2) [sampleImage])).noContentShown = true ∧
      (step sampleState (SeqEvent.pollOk (some 2) [sampleImage])).currentTimer = none) ∧
    ([sampleImage] ≠ ([] : List DisplayItem) →
      (step sampleState (SeqEvent.pollOk (some 2) [sampleImage])).currentIndex = 0 ∧
      (step sampleState (SeqEvent.pollOk (some 2) [sampleImage])).attached
          = [([sampleImage] : List DisplayItem).getD 0 default] ∧
      (step sampleState (SeqEvent.pollOk (some 2) [sampleImage])).noContentShown = false ∧
      (step sampleState (SeqEvent.pollOk (some 2) [sampleImage])).currentTimer =
        (if (([sampleImage] : List DisplayItem).getD 0 default).media_type = "image" then
          computeDuration (([sampleImage] : List DisplayItem).getD 0 default)
        else none)) :=
  c2_reconcile_restarts_at_zero sampleState (some 2) [sampleImage] (by decide)

/-- `showNoContent` establishes the sequencer invariant whenever the
snapshot is empty. -/
theorem showNoContent_SeqInv (s : SeqState) (h : s.playlist = []) :
    SeqInv (showNoContent s) := by
  refine ⟨?_, ?_, ?_⟩
  · simp [showNoContent, clearCurrentTimer]
  · intro hne
    exact absurd h hne
  · intro ht
    simp [showNoContent, clearCurrentTimer] at ht

/-- `playItem` establishes the sequencer invariant from any state. -/
theorem playItem_SeqInv (s : SeqState) (i : Nat) : SeqInv (playItem s i) := by
  by_cases h0 : s.playlist.length = 0
  · have hnil : s.playlist = [] := List.length_eq_zero.mp h0
    unfold playItem
    rw [if_pos h0]
    exact showNoContent_SeqInv s hnil
  · rw [playItem_of_ne_nil s i h0]
    refine ⟨by simp, ?_, ?_⟩
    · intro _
      refine ⟨?_, rfl, rfl⟩
      dsimp only
      split <;> omega
    · intro ht
      dsimp only at ht ⊢
      refine ⟨fun hnil => h0 (by simp [hnil]), ?_⟩
      by_cases him :
          (s.playlist.getD (if i ≥ s.playlist.length then 0 else i) default).media_type
            = "image"
      · exact him
      · rw [if_neg him] at ht
        simp at ht

/-- Every poll outcome preserves the sequencer invariant. -/
theorem pollPlaylist_SeqInv (s : SeqState) (r : Option (Option Int × List DisplayItem))
    (h : SeqInv s) : SeqInv (pollPlaylist s r).1 := by
  match r with
  | none => exact h
  | some (v, items) =>
    by_cases hv : v ≠ s.playlistVersion
    · by_cases hl : items.length = 0
      · have hr : (pollPlaylist s (some (v, items))).1 =
            showNoContent { s with playlistVersion := v, playlist := items, currentIndex := 0 } := by
          simp [pollPlaylist, hv, hl]
        rw [hr]
        exact showNoContent_SeqInv _ (List.length_eq_zero.mp hl)
      · have hr : (pollPlaylist s (some (v, items))).1 =
            playItem { s with playlistVersion := v, playlist := items, currentIndex := 0 } 0 := by
          simp [pollPlaylist, hv, hl]
        rw [hr]
        exact playItem_SeqInv _ 0
    · have hr : (pollPlaylist s (some (v, items))).1 = s := by
        simp [pollPlaylist, hv]
      rw [hr]
      exact h

/-- Every event-loop turn preserves the sequencer invariant. -/
theorem step_SeqInv (s : SeqState) (e : SeqEvent) (h : SeqInv s) : SeqInv (step s e) := by
  cases e with
  | timerFire =>
    cases ht : s.currentTimer with
    | none => simpa [step, ht] using h
    | some d => simpa [step, ht] using playItem_SeqInv s (s.currentIndex + 1)
  | videoEnded =>
    cases ha : s.attached with
    | nil => simpa [step, ha] using h
    | cons a rest =>
      cases rest with
      | nil =>
        by_cases him : a.media_type = "image"
        · simpa [step, ha, him] using h
        · simpa [step, ha, him] using playItem_SeqInv s (s.currentIndex + 1)
      | cons b rest2 => simpa [step, ha] using h
  | videoError =>
    cases ha : s.attached with
    | nil => simpa [step, ha] using h
    | cons a rest =>
      cases rest with
      | nil =>
        by_cases him : a.media_type = "image"
        · simpa [step, ha, him] using h
        · simpa [step, ha, him] using playItem_SeqInv s (s.currentIndex + 1)
      | cons b rest2 => simpa [step, ha] using h
  | pollOk v items => exact pollPlaylist_SeqInv s (some (v, items)) h
  | pollFail => exact pollPlaylist_SeqInv s none h

/-- Both initial branches establish the sequencer invariant. -/
theorem init_SeqInv (pl : List DisplayItem) (v : Option Int) : SeqInv (init pl v) := by
  unfold init
  dsimp only
  split
  · exact playItem_SeqInv _ 0
  next h => exact showNoContent_SeqInv _ (List.length_eq_zero.mp (not_not.mp h))

/-- The sequencer invariant holds in every reachable state. -/
theorem reachable_SeqInv (s : SeqState) (h : Reachable s) : SeqInv s := by
  induction h with
  | init pl v => exact init_SeqInv pl v
  | step s' e _ ih => exact step_SeqInv s' e ih

/-- Claim C3: in every reachable state at most one media element is
attached to the display; with a non-empty snapshot exactly the element
of the current item is attached (the previous item's element is gone and
the placeholder hidden); and an armed timer always belongs to the
currently shown image item, so a timer and a video completion listener
are never active together. -/
theorem c3_one_item_one_timer (s : SeqState) (h : Reachable s) :
    s.attached.length ≤ 1 ∧
    (s.playlist ≠ [] →
      s.currentIndex < s.playlist.length ∧
      s.attached = [s.playlist.getD s.currentIndex default] ∧
      s.noContentShown = false) ∧
    (s.currentTimer.isSome = true →
      s.playlist ≠ [] ∧ (s.playlist.getD s.currentIndex default).media_type = "image") :=
  reachable_SeqInv s h

/-- Claim C3, witness: the invariant at the reachable one-video state. -/
theorem c3_witness :
    sampleState.attached.length ≤ 1 ∧
    (sampleState.playlist ≠ [] →
      sampleState.currentIndex < sampleState.playlist.length ∧
      sampleState.attached = [sampleState.playlist.getD sampleState.currentIndex default] ∧
      sampleState.noContentShown = false) ∧
    (sampleState.currentTimer.isSome = true →
      sampleState.playlist ≠ [] ∧
      (sampleState.playlist.getD sampleState.currentIndex default).media_type = "image") :=
  c3_one_item_one_timer sampleState (Reachable.init [sampleVideo] (some 1))

/-- Claim C9, counterexample: a response whose `items` field is the
number 5 — not a sequence of items — passes the poller's truthiness-only
validation and is handed off: it replaces the cached snapshot and
version.  The claim says such a response is rejected before hand-off and
never replaces the local snapshot. -/
theorem c9_nonsequence_items_replaces_snapshot :
    (pollPlaylistRaw pollIdleState (some pollCexData)).playlistJson = Json.num 5 ∧
    (pollPlaylistRaw pollIdleState (some pollCexData)).playlistVersion = Json.num 1 ∧
    isItemsSequence (getField pollCexData "items") = false :=
  ⟨rfl, rfl, rfl⟩

/-- Claim C9 (amended): the poller's validation is a truthiness check
only.  A failed fetch or parse never touches the state, and a payload
that is falsy or whose `items` field is falsy (absent, null, false, 0,
empty string) is rejected and never replaces the snapshot — but any
truthy `items` value passes, sequence or not. -/
theorem c9_amended_truthiness_only_validation (s : PollState) (data : Json)
    (h : truthy data = false ∨ truthy (getField data "items") = false) :
    pollPlaylistRaw s none = s ∧ pollPlaylistRaw s (some data) = s := by
  refine ⟨rfl, ?_⟩
  unfold pollPlaylistRaw
  have hc : (truthy data && truthy (getField data "items")) = false := by
    rcases h with h | h <;> simp [h]
  simp [hc]

/-- Claim C9, witness: a parsed `null` payload is falsy and leaves the
idle poller state untouched. -/
theorem c9_witness :
    pollPlaylistRaw pollIdleState none = pollIdleState ∧
    pollPlaylistRaw pollIdleState (some Json.null) = pollIdleState :=
  c9_amended_truthiness_only_validation pollIdleState Json.null (Or.inl rfl)

/-- On the mapped payload, any position holding a non-image playlist
item carries a null duration. -/
theorem payload_map_nonimage (l : List EditorItem) (i : Nat)
    (h : (l.getD i default).mediaType ≠ "image") :
    ((l.map payloadItemOf).getD i default).duration = none := by
  induction l generalizing i with
  | nil => rfl
  | cons x xs ih =>
    cases i with
    | zero =>
      simp only [List.getD_cons_zero, List.map_cons] at h ⊢
      simp [payloadItemOf, h]
    | succ n =>
      simp only [List.getD_cons_succ, List.map_cons] at h ⊢
      exact ih n h

/-- Claim C10: whenever `savePlaylist` posts a payload, it has one entry
per playlist item, every entry whose playlist item is not an image has
`duration = null`, and a single-entry payload whose media the library
classifies as an image also has `duration = null` — no matter what
duration the operator entered. -/
theorem c10_save_payload_durations (mediaMap : List (Int × String))
    (ps : List EditorItem) (payload : List PayloadItem)
    (h : savePlaylist mediaMap ps = some payload) :
    payload.length = ps.length ∧
    (∀ i : Nat, (ps.getD i default).mediaType ≠ "image" →
      (payload.getD i default).duration = none) ∧
    (payload.length = 1 →
      mediaMapGet mediaMap ((payload.getD 0 default).media_id) = some "image" →
      (payload.getD 0 default).duration = none) := by
  cases ps with
  | nil => simp [savePlaylist] at h
  | cons x xs =>
    cases xs with
    | nil =>
      by_cases hm : mediaMapGet mediaMap x.mediaId = some "image"
      · have hp : payload = [{ payloadItemOf x with duration := none }] := by
          simp [savePlaylist, payloadItemOf, hm] at h
          exact h.symm
        subst hp
        refine ⟨rfl, ?_, fun _ _ => rfl⟩
        intro i _
        cases i <;> rfl
      · have hp : payload =
            [{ media_id := x.mediaId,
               duration := if x.mediaType = "image" then x.duration else none }] := by
          simp [savePlaylist, payloadItemOf, hm] at h
          exact h.symm
        subst hp
        refine ⟨rfl, ?_, ?_⟩
        · intro i hi
          cases i with
          | zero =>
            simp only [List.getD_cons_zero] at hi ⊢
            simp [hi]
          | succ n => rfl
        · intro _ himg
          simp only [List.getD_cons_zero] at himg
          exact absurd himg hm
    | cons y ys =>
      have hp : payload = (x :: y :: ys).map payloadItemOf := by
        simp [savePlaylist] at h
        exact h.symm
      subst hp
      refine ⟨by simp, ?_, ?_⟩
      · intro i hi
        exact payload_map_nonimage (x :: y :: ys) i hi
      · intro hlen
        simp at hlen

/-- Claim C10, witness: saving a single-image playlist with an entered
duration of 4 posts it with a null duration. -/
theorem c10_witness :
    ([({ media_id := 1, duration := none } : PayloadItem)]).length
        = ([({ mediaId := 1, mediaType := "image", duration := some 4 } : EditorItem)]).length ∧
    (∀ i : Nat,
      (([({ mediaId := 1, mediaType := "image", duration := some 4 } : EditorItem)]).getD i
          default).mediaType ≠ "image" →
      (([({ media_id := 1, duration := none } : PayloadItem)]).getD i default).duration
        = none) ∧
    (([({ media_id := 1, duration := none } : PayloadItem)]).length = 1 →
      mediaMapGet [(1, "image")]
          ((([({ media_id := 1, duration := none } : PayloadItem)]).getD 0 default).media_id)
        = some "image" →
      (([({ media_id := 1, duration := none } : PayloadItem)]).getD 0 default).duration
        = none) :=
  c10_save_payload_durations [(1, "image")]
    [{ mediaId := 1, mediaType := "image", duration := some 4 }]
    [{ media_id := 1, duration := none }] rfl

end PiShow
